import Mathlib

/-!
Verification of the conversational recommendation pipeline of `src/app.py`
(the `/chat` route and its helpers `_search_and_extract_movie` and
`_fetch_visual_recommendations`), as a shallow embedding in Lean.

Modelling conventions:
* JSON values are the inductive `Json`; `json_loads` is an executable model of
  Python's `json.loads` (strict delimiters, escape sequences, no trailing
  garbage).  Numeric literals are restricted to integers: no claim concerns
  numeric payloads and floating point is outside the embedding.
* The upstream title-search service is an oracle `String → SearchOutcome`
  keyed by the transmitted `title` query-parameter value; `requestError`
  stands for every `requests.exceptions.RequestException` (network failure,
  timeout, non-2xx via `raise_for_status`, undecodable body).
* The thread-pool fan-out of `_fetch_visual_recommendations` is linearised in
  submission order; the properties proved about it (result length, element
  shape, emptiness, error propagation) are invariant under the completion
  order, which the code does not fix.
* Outbound HTTP calls are recorded as `HttpRequest` values so that claims
  about timeouts, query encoding and "no calls are made" are statable.
-/

/-- JSON values, as produced by `json.loads` (object fields kept in order). -/
inductive Json where
  | null : Json
  | bool (b : Bool) : Json
  | num (n : Int) : Json
  | str (s : String) : Json
  | arr (xs : List Json) : Json
  | obj (fields : List (String × Json)) : Json

/-- Python `dict` lookup on a field list: with duplicate keys `json.loads`
keeps the last binding, so the lookup returns the last match. -/
def jlookup (fields : List (String × Json)) (k : String) : Option Json :=
  match fields with
  | [] => none
  | (k0, v) :: rest =>
    match jlookup rest k with
    | some v2 => some v2
    | none => if k0 = k then some v else none

/-- Python `dict` assignment `d[k] = v`: replaces the binding when the key is
present, appends it otherwise. -/
def setKey : List (String × Json) → String → Json → List (String × Json)
  | [], k, v => [(k, v)]
  | (k0, v0) :: rest, k, v =>
    if k0 = k then (k, v) :: rest else (k0, v0) :: setKey rest k v

/-- Python truthiness (`if not x`) of a JSON value. -/
def jsonTruthy : Json → Bool
  | Json.null => false
  | Json.bool b => b
  | Json.num n => decide (n ≠ 0)
  | Json.str s => decide (s ≠ "")
  | Json.arr xs => !xs.isEmpty
  | Json.obj fs => !fs.isEmpty

/-- JSON whitespace skipped by `json.loads` between tokens. -/
def isJsonWs (c : Char) : Bool :=
  c = ' ' || c = '\t' || c = '\n' || c = '\r'

/-- Whitespace stripped by Python's `str.strip()`. -/
def isPySpace (c : Char) : Bool :=
  c = ' ' || c = '\t' || c = '\n' || c = '\r' || c = '\x0b' || c = '\x0c'

/-- Python `str.strip()`: drop leading and trailing whitespace. -/
def pyStrip (s : String) : String :=
  (((s.toList.dropWhile isPySpace).reverse.dropWhile isPySpace).reverse).asString

/-- Python `s.find(c)`: index of the first occurrence, `none` for `-1`. -/
def strFind (s : String) (c : Char) : Option Nat :=
  s.toList.findIdx? (fun d => d = c)

/-- Python `s.rfind(c)`: index of the last occurrence, `none` for `-1`. -/
def strRfind (s : String) (c : Char) : Option Nat :=
  match s.toList.reverse.findIdx? (fun d => d = c) with
  | some i => some (s.toList.length - 1 - i)
  | none => none

/-- Python slice `s[a:b]` for non-negative bounds (clamped, empty when
`b ≤ a`). -/
def pySlice (s : String) (a b : Nat) : String :=
  (((s.toList.drop a).take (b - a))).asString

/-- Value of a hexadecimal digit. -/
def hexVal (c : Char) : Option Nat :=
  if '0' ≤ c ∧ c ≤ '9' then some (c.toNat - 48)
  else if 'a' ≤ c ∧ c ≤ 'f' then some (c.toNat - 87)
  else if 'A' ≤ c ∧ c ≤ 'F' then some (c.toNat - 55)
  else none

/-- Single-character JSON string escapes (`\u` is handled separately). -/
def escChar (e : Char) : Option Char :=
  if e = '"' then some '"'
  else if e = '\\' then some '\\'
  else if e = '/' then some '/'
  else if e = 'n' then some '\n'
  else if e = 't' then some '\t'
  else if e = 'r' then some '\r'
  else if e = 'b' then some (Char.ofNat 8)
  else if e = 'f' then some (Char.ofNat 12)
  else none

/-- Parse the body of a JSON string after the opening quote; returns the
decoded characters and the input remaining after the closing quote.  Raw
control characters are invalid, as in `json.loads`. -/
def parseStrBody : Nat → List Char → Option (List Char × List Char)
  | 0, _ => none
  | _, [] => none
  | Nat.succ fuel, c :: rest =>
    if c = '"' then some ([], rest)
    else if c = '\\' then
      match rest with
      | [] => none
      | e :: rest2 =>
        if e = 'u' then
          match rest2 with
          | h1 :: h2 :: h3 :: h4 :: rest3 =>
            match hexVal h1, hexVal h2, hexVal h3, hexVal h4 with
            | some a, some b, some c2, some d =>
              (parseStrBody fuel rest3).map
                (fun p => (Char.ofNat (((a * 16 + b) * 16 + c2) * 16 + d) :: p.1, p.2))
            | _, _, _, _ => none
          | _ => none
        else
          match escChar e with
          | some ch => (parseStrBody fuel rest2).map (fun p => (ch :: p.1, p.2))
          | none => none
    else if c.toNat < 32 then none
    else (parseStrBody fuel rest).map (fun p => (c :: p.1, p.2))

/-- Consume an expected literal suffix (`rue` of `true`, ...). -/
def dropLit : List Char → List Char → Option (List Char)
  | [], rest => some rest
  | l :: ls, c :: rest => if c = l then dropLit ls rest else none
  | _ :: _, [] => none

/-- Decimal digits to a natural number. -/
def digitsToNat (ds : List Char) : Nat :=
  ds.foldl (fun acc c => acc * 10 + (c.toNat - 48)) 0

/-- Build the parsed integer with its sign. -/
def mkNum (neg : Bool) (ds : List Char) : Json :=
  Json.num (if neg then -(Int.ofNat (digitsToNat ds)) else Int.ofNat (digitsToNat ds))

/-- Parse a JSON number.  Integers only: a fraction or exponent fails (no
claim concerns numeric payloads; floating point is outside the embedding). -/
def parseNum (cs : List Char) : Option (Json × List Char) :=
  let p := match cs with
    | '-' :: rest => (true, rest)
    | _ => (false, cs)
  let ds := p.2.takeWhile (fun c => decide ('0' ≤ c ∧ c ≤ '9'))
  let rest := p.2.drop ds.length
  if ds.isEmpty then none
  else if ds.length > 1 ∧ ds.head? = some '0' then none
  else
    match rest with
    | c :: _ => if c = '.' ∨ c = 'e' ∨ c = 'E' then none else some (mkNum p.1 ds, rest)
    | [] => some (mkNum p.1 ds, [])

mutual

/-- Parse one JSON value (fuel-bounded recursive descent). -/
def parseVal : Nat → List Char → Option (Json × List Char)
  | 0, _ => none
  | Nat.succ fuel, cs =>
    match List.dropWhile isJsonWs cs with
    | [] => none
    | c :: rest =>
      if c = '"' then
        (parseStrBody fuel rest).map (fun p => (Json.str p.1.asString, p.2))
      else if c = 't' then
        (dropLit ['r', 'u', 'e'] rest).map (fun r => (Json.bool true, r))
      else if c = 'f' then
        (dropLit ['a', 'l', 's', 'e'] rest).map (fun r => (Json.bool false, r))
      else if c = 'n' then
        (dropLit ['u', 'l', 'l'] rest).map (fun r => (Json.null, r))
      else if c = '[' then
        match List.dropWhile isJsonWs rest with
        | ']' :: rest2 => some (Json.arr [], rest2)
        | _ => (parseArrItems fuel rest).map (fun p => (Json.arr p.1, p.2))
      else if c = '{' then
        match List.dropWhile isJsonWs rest with
        | '}' :: rest2 => some (Json.obj [], rest2)
        | _ => (parseObjItems fuel rest).map (fun p => (Json.obj p.1, p.2))
      else if c = '-' ∨ ('0' ≤ c ∧ c ≤ '9') then parseNum (c :: rest)
      else none

/-- Parse the comma-separated items of a non-empty JSON array up to `]`. -/
def parseArrItems : Nat → List Char → Option (List Json × List Char)
  | 0, _ => none
  | Nat.succ fuel, cs =>
    match parseVal fuel cs with
    | none => none
    | some (v, rest) =>
      match List.dropWhile isJsonWs rest with
      | ',' :: rest2 => (parseArrItems fuel rest2).map (fun p => (v :: p.1, p.2))
      | ']' :: rest2 => some ([v], rest2)
      | _ => none

/-- Parse the members of a non-empty JSON object up to `}`. -/
def parseObjItems : Nat → List Char → Option (List (String × Json) × List Char)
  | 0, _ => none
  | Nat.succ fuel, cs =>
    match List.dropWhile isJsonWs cs with
    | '"' :: rest =>
      match parseStrBody fuel rest with
      | none => none
      | some (key, rest1) =>
        match List.dropWhile isJsonWs rest1 with
        | ':' :: rest2 =>
          match parseVal fuel rest2 with
          | none => none
          | some (v, rest3) =>
            match List.dropWhile isJsonWs rest3 with
            | ',' :: rest4 =>
              (parseObjItems fuel rest4).map (fun p => ((key.asString, v) :: p.1, p.2))
            | '}' :: rest4 => some ([(key.asString, v)], rest4)
            | _ => none
        | _ => none
    | _ => none

end

/-- Fuel bound: generous linear budget in the input length. -/
def json_fuel (s : String) : Nat := 4 * s.length + 8

/-- Model of Python `json.loads`: parse one value, allow only trailing
whitespace, fail (`None`, standing for `json.JSONDecodeError`) otherwise. -/
def json_loads (s : String) : Option Json :=
  match parseVal (json_fuel s) s.toList with
  | some (v, rest) => if (List.dropWhile isJsonWs rest).isEmpty then some v else none
  | none => none

/-- Uppercase hexadecimal digit, as `urllib.parse.quote` emits. -/
def hexDigitUpper (n : Nat) : Char :=
  if n < 10 then Char.ofNat (48 + n) else Char.ofNat (55 + n)

/-- UTF-8 bytes of a character (`quote_plus` percent-encodes byte-wise). -/
def utf8Bytes (c : Char) : List Nat :=
  let n := c.toNat
  if n < 128 then [n]
  else if n < 2048 then [192 + n / 64, 128 + n % 64]
  else if n < 65536 then [224 + n / 4096, 128 + (n / 64) % 64, 128 + n % 64]
  else [240 + n / 262144, 128 + (n / 4096) % 64, 128 + (n / 64) % 64, 128 + n % 64]

/-- Bytes `urllib.parse.quote_plus` leaves unescaped: ASCII alphanumerics and
`_`, `.`, `-`, `~`. -/
def isQuoteSafe (b : Nat) : Bool :=
  (65 ≤ b && b ≤ 90) || (97 ≤ b && b ≤ 122) || (48 ≤ b && b ≤ 57) ||
    b = 95 || b = 46 || b = 45 || b = 126

/-- Model of `urllib.parse.quote_plus`: safe bytes verbatim, space to `+`,
every other byte to `%XX` with uppercase hex. -/
def quote_plus (s : String) : String :=
  String.join ((s.toList.flatMap utf8Bytes).map (fun b =>
    if isQuoteSafe b then String.singleton (Char.ofNat b)
    else if b = 32 then "+"
    else "%" ++ String.singleton (hexDigitUpper (b / 16)) ++
      String.singleton (hexDigitUpper (b % 16))))

/-- The title-search endpoint (`SEARCH_API_URL` in `src/app.py`). -/
def SEARCH_API_URL : String := "https://id-to-poster-api-3.onrender.com/search_movie"

/-- An outbound HTTP GET as the code constructs it: the URL, the value the
code passes for the `title` query parameter, the optional `limit` parameter,
and the timeout passed to `requests.get` (`none` when the code passes no
timeout argument, so the library default of no timeout applies). -/
structure HttpRequest where
  url : String
  title_param : String
  limit_param : Option Nat
  timeout : Option Nat

/-- The search request issued by `_search_and_extract_movie` (line 145):
`requests.get(SEARCH_API_URL, params={"title": quote_plus(movie_name),
"limit": 1})` — no timeout argument. -/
def resolverRequest (movie_name : String) : HttpRequest :=
  HttpRequest.mk SEARCH_API_URL (quote_plus movie_name) (some 1) none

/-- The catalog-search request issued by `_search_movies_utility` (line 80):
`requests.get(SEARCH_API_URL, params={"title": query})` — the raw query. -/
def catalogSearchRequest (query : String) : HttpRequest :=
  HttpRequest.mk SEARCH_API_URL query none none

/-- Modelled library behavior, not repository code: `requests` serialises
`params` with `urllib.parse.urlencode`, whose default `quote_via` is
`quote_plus`, so the value transmitted on the wire for the `title` parameter
is `quote_plus` of whatever string the code supplied. -/
def wireTitleValue (r : HttpRequest) : String :=
  quote_plus r.title_param

/-- One hit of the title-search collaborator, an object
`{imdb_id, title, poster_path}` whose fields may be missing. -/
structure SearchHit where
  imdb_id : Option String
  title : Option String
  poster_path : Option String

/-- Outcome of one resolver search call.  `requestError` stands for every
`requests.exceptions.RequestException`: network failure, timeout, non-2xx
(via `raise_for_status`) or an undecodable response body. -/
inductive SearchOutcome where
  | requestError : SearchOutcome
  | ok (hits : List SearchHit) : SearchOutcome

/-- The dict `_search_and_extract_movie` builds from the first search hit. -/
structure MovieRef where
  imdb_id : String
  title : Option String
  poster_path : Option String

/-- `_search_and_extract_movie` (src/app.py lines 142-159).  The search
oracle is keyed by the transmitted `title` parameter value, which the code
sets to `quote_plus(movie_name)`.  `none` is Python `None`: returned on a
request exception (caught at lines 157-159), on an empty result array, and
on a first hit whose `imdb_id` is missing or falsy (empty). -/
def _search_and_extract_movie (search : String → SearchOutcome)
    (movie_name : String) : Option MovieRef :=
  match search (quote_plus movie_name) with
  | SearchOutcome.requestError => none
  | SearchOutcome.ok [] => none
  | SearchOutcome.ok (hit :: _) =>
    match hit.imdb_id with
    | none => none
    | some id => if id = "" then none
      else some (MovieRef.mk id hit.title hit.poster_path)

/-- A Python exception escaping a worker (re-raised by `future.result()`). -/
inductive PyError where
  | typeError : PyError

/-- One submitted worker of the fan-out: `_search_and_extract_movie` applied
to one element of `movie_names`, paired with the request it issues.  A
non-string element makes `quote_plus` raise `TypeError`. -/
def workerRun (search : String → SearchOutcome) :
    Json → Except PyError (Option MovieRef × HttpRequest)
  | Json.str s => Except.ok (_search_and_extract_movie search s, resolverRequest s)
  | _ => Except.error PyError.typeError

/-- The `as_completed`/`future.result()` collection loop: gather every
worker's result, or propagate the first exception a worker raised. -/
def collectWorkers (search : String → SearchOutcome) :
    List Json → Except PyError (List (Option MovieRef × HttpRequest))
  | [] => Except.ok []
  | n :: rest =>
    match workerRun search n with
    | Except.error e => Except.error e
    | Except.ok p =>
      match collectWorkers search rest with
      | Except.error e => Except.error e
      | Except.ok ps => Except.ok (p :: ps)

/-- `_fetch_visual_recommendations` (src/app.py lines 161-176).  Guard: a
falsy or non-list argument returns `[]` with no worker submitted (no request
issued — the second component records the issued requests).  Otherwise one
worker per name runs on a pool of at most 5; results are collected with
`as_completed` and falsy (`None`) results dropped.  The completion order is
linearised here in submission order; every property proved about the result
(length, element shape, emptiness, error propagation) is invariant under the
permutation the real completion order applies.  An exception in any worker
re-raises at `future.result()` and escapes to the caller (`Except.error`). -/
def _fetch_visual_recommendations (search : String → SearchOutcome) :
    Json → Except PyError (List MovieRef × List HttpRequest)
  | Json.arr names =>
    if names.isEmpty then Except.ok ([], [])
    else
      match collectWorkers search names with
      | Except.error e => Except.error e
      | Except.ok results =>
        Except.ok (results.filterMap Prod.fst, results.map Prod.snd)
  | _ => Except.ok ([], [])

mutual

/-- Python `repr` of a JSON value, as f-string interpolation renders
containers; quote-style and escape details of `repr` are simplified (no
claim depends on the rendering of non-string values). -/
def pyRepr : Json → String
  | Json.null => "None"
  | Json.bool true => "True"
  | Json.bool false => "False"
  | Json.num n => toString n
  | Json.str s => "'" ++ s ++ "'"
  | Json.arr xs => "[" ++ pyReprList xs ++ "]"
  | Json.obj fs => "\x7b" ++ pyReprFields fs ++ "\x7d"

/-- Comma-joined `repr`s of list elements. -/
def pyReprList : List Json → String
  | [] => ""
  | [x] => pyRepr x
  | x :: y :: xs => pyRepr x ++ ", " ++ pyReprList (y :: xs)

/-- Comma-joined `repr`s of dict entries. -/
def pyReprFields : List (String × Json) → String
  | [] => ""
  | [p] => "'" ++ p.1 ++ "': " ++ pyRepr p.2
  | p :: q :: fs => "'" ++ p.1 ++ "': " ++ pyRepr p.2 ++ ", " ++ pyReprFields (q :: fs)

end

/-- Python `str()` of a JSON value (what an f-string interpolates). -/
def pyStr : Json → String
  | Json.str s => s
  | j => pyRepr j

/-- f-string interpolation of a value that may be Python `None`. -/
def pyStrOptJson : Option Json → String
  | none => "None"
  | some j => pyStr j

/-- Whether Python `x[:50]` succeeds on the value (`str` and `list` slice;
`None`, numbers, booleans and dicts raise `TypeError`). -/
def pySliceable : Option Json → Bool
  | some (Json.str _) => true
  | some (Json.arr _) => true
  | _ => false

/-- The fixed persona/system instruction (src/app.py lines 34-47), verbatim
including trailing spaces; the triple-quoted literal begins and ends with a
newline. -/
def SYSTEM_PROMPT : String :=
  "\nYou are 'Movie Bot', a cheerful and helpful movie recommendation assistant. \nThe user will tell you their mood or preferences. Your job is to:\n1.  Understand their mood.\n2.  Recommend 3-5 movies that benefits that mood.\n3.  Keep your replies conversational, friendly, and concise (like a chatbot).\n4.  Do not recommend new movies. movie should be before 2022.\n5.  **Crucially, you must ALWAYS respond with a JSON object in the following exact format:**\n\x7b\n    \"reply_to_user\": \"[Your friendly reply and recommendations go here]\", \n    \"context\": \"[A very brief summary of the conversation so far, including the user's last message and your reply. This is for your own memory.]\",\n    \"recommended_movies\":[\"movie1\",\"movie2\",\"movie3\"](this should be python list)\n\x7d\n"

/-- An HTTP response of the route: status code and JSON body. -/
structure HttpResponse where
  status : Nat
  body : Json

/-- Body of the 500 answer when the model client is unconfigured (line 369). -/
def unconfiguredBody : Json :=
  Json.obj [("error", Json.str "AI model is not configured.")]

/-- Body of the 200 soft-failure answer to malformed model output (line 413). -/
def apologyBody : Json :=
  Json.obj [("reply_to_user", Json.str "Sorry, I got a little confused. Could you rephrase that?")]

/-- Body of the catch-all 500 answer (line 420). -/
def criticalErrorBody : Json :=
  Json.obj [("error", Json.str "Sorry, I'm having trouble thinking right now.")]

/-- The environment of one chat turn: whether the Gemini client loaded
(`model` is not `None`), the language model as an oracle from the prompt to
the raw response text (`model.generate_content(prompt).text`), and the
title-search collaborator. -/
structure ChatEnv where
  configured : Bool
  llm : String → String
  search : String → SearchOutcome

/-- `data.get("message")` (line 373): `None` when the key is absent. -/
def chatUserMessage (body : List (String × Json)) : Option Json :=
  jlookup body "message"

/-- `data.get("context", "")` (line 374). -/
def chatContext (body : List (String × Json)) : Json :=
  (jlookup body "context").getD (Json.str "")

/-- Prompt assembly (lines 376-379): the context section is omitted when
`context` is falsy, otherwise inserted between the persona instruction and
the user message. -/
def chatPrompt (user_message : Option Json) (context : Json) : String :=
  if jsonTruthy context then
    SYSTEM_PROMPT ++ "\n\nPrevious Context: " ++ pyStr context ++ "\n\nUser: " ++
      pyStrOptJson user_message
  else
    SYSTEM_PROMPT ++ "\n\nUser: " ++ pyStrOptJson user_message

/-- `response.text.strip()` for the turn (lines 384-386). -/
def chatResponseText (cenv : ChatEnv) (body : List (String × Json)) : String :=
  pyStrip (cenv.llm (chatPrompt (chatUserMessage body) (chatContext body)))

/-- The candidate JSON payload (lines 389-396): the substring from the first
`{` to the last `}` inclusive, stripped; `none` when either delimiter is
missing (the code then raises `json.JSONDecodeError` itself). -/
def candidateJsonString (response_text : String) : Option String :=
  match strFind response_text '{', strRfind response_text '}' with
  | some s, some e => some (pyStrip (pySlice response_text s (e + 1)))
  | _, _ => none

/-- Extraction (lines 389-397): delimiter scan then `json.loads`; `none` is
the `json.JSONDecodeError` path, from a missing delimiter or a parse
failure alike. -/
def extractModelJson (response_text : String) : Option Json :=
  match candidateJsonString response_text with
  | some cand => json_loads cand
  | none => none

/-- `response_data.get("recommended_movies", [])` (line 399): the default
applies only when the key is absent. -/
def extract_recommended_movies (fields : List (String × Json)) : Json :=
  (jlookup fields "recommended_movies").getD (Json.arr [])

/-- JSON rendering of an optional string (`None` becomes JSON null). -/
def optJson : Option String → Json
  | none => Json.null
  | some s => Json.str s

/-- The dict built for one visual recommendation, as `jsonify` serialises
it. -/
def movieRefJson (r : MovieRef) : Json :=
  Json.obj [("imdb_id", Json.str r.imdb_id), ("title", optJson r.title),
    ("poster_path", optJson r.poster_path)]

/-- The `/chat` route (src/app.py lines 366-420) on a JSON-object request
body.  In order: the unconfigured-model 500 (lines 368-369); the diagnostic
`user_message[:50]` (line 382), whose `TypeError` on a missing or
unsliceable `message` is caught by the catch-all (500, line 420); the model
call and extraction, whose `json.JSONDecodeError` is answered 200 with the
apology (lines 410-413); enrichment, an exception inside it reaching the
catch-all; and the 200 answer carrying the parsed object augmented with
`visual_recommendations` (lines 399-408). -/
def chat (cenv : ChatEnv) (body : List (String × Json)) : HttpResponse :=
  if cenv.configured = false then
    HttpResponse.mk 500 unconfiguredBody
  else if pySliceable (chatUserMessage body) = false then
    HttpResponse.mk 500 criticalErrorBody
  else
    match extractModelJson (chatResponseText cenv body) with
    | none => HttpResponse.mk 200 apologyBody
    | some (Json.obj fields) =>
      match _fetch_visual_recommendations cenv.search (extract_recommended_movies fields) with
      | Except.ok res =>
        HttpResponse.mk 200
          (Json.obj (setKey fields "visual_recommendations" (Json.arr (res.1.map movieRefJson))))
      | Except.error _ => HttpResponse.mk 500 criticalErrorBody
    | some _ => HttpResponse.mk 500 criticalErrorBody

/-- A search collaborator that always fails with a request exception. -/
def errorSearch : String → SearchOutcome := fun _ => SearchOutcome.requestError

/-- Raw model text of testable property 3 of the spec: the JSON object
wrapped in prose. -/
def exampleRaw : String :=
  "Sure! \x7b\"reply_to_user\":\"Hi\",\"context\":\"c\",\"recommended_movies\":[]\x7d Hope that helps!"

/-- Chat environment whose model returns `exampleRaw` for every prompt. -/
def exampleEnv : ChatEnv := ChatEnv.mk true (fun _ => exampleRaw) errorSearch

/-- Chat environment whose model answers in prose without any JSON braces. -/
def noJsonEnv : ChatEnv :=
  ChatEnv.mk true (fun _ => "I cannot answer in the requested format.") errorSearch

/-- A request body carrying only a message. -/
def bodyHi : List (String × Json) := [("message", Json.str "hi")]

/-- The enriched payload the example turn must produce. -/
def expectedExampleBody : Json :=
  Json.obj [("reply_to_user", Json.str "Hi"), ("context", Json.str "c"),
    ("recommended_movies", Json.arr []), ("visual_recommendations", Json.arr [])]

/-- A two-character text holding exactly one brace pair. -/
def braceOnly : String := "\x7b\x7d"

lemma collectWorkers_strings (search : String → SearchOutcome) (names : List String) :
    collectWorkers search (names.map Json.str) =
      Except.ok (names.map
        (fun s => (_search_and_extract_movie search s, resolverRequest s))) := by
  induction names with
  | nil => rfl
  | cons a l ih => simp [collectWorkers, ih, workerRun]

lemma fetch_visual_strings_eq (search : String → SearchOutcome) (names : List String) :
    _fetch_visual_recommendations search (Json.arr (names.map Json.str)) =
      Except.ok (names.filterMap (_search_and_extract_movie search),
        names.map resolverRequest) := by
  cases names with
  | nil => rfl
  | cons a l =>
    have h1 := collectWorkers_strings search (a :: l)
    simp only [List.map_cons] at h1
    simp only [_fetch_visual_recommendations, List.map_cons, List.isEmpty_cons, h1]
    have h2 : (Prod.fst ∘ fun s => (_search_and_extract_movie search s, resolverRequest s)) =
        _search_and_extract_movie search := rfl
    simp [List.filterMap_cons, List.filterMap_map, h2]

lemma fetch_nonlist_eq (search : String → SearchOutcome) (j : Json)
    (hj : ∀ l : List Json, j ≠ Json.arr l) :
    _fetch_visual_recommendations search j = Except.ok ([], []) := by
  cases j with
  | arr xs => exact absurd rfl (hj xs)
  | null => rfl
  | bool b => rfl
  | num n => rfl
  | str s => rfl
  | obj fs => rfl

lemma resolve_some_id_ne (search : String → SearchOutcome) (s : String) (r : MovieRef)
    (h : _search_and_extract_movie search s = some r) : r.imdb_id ≠ "" := by
  unfold _search_and_extract_movie at h
  split at h
  · exact Option.noConfusion h
  · exact Option.noConfusion h
  · split at h
    · exact Option.noConfusion h
    · split at h
      · exact Option.noConfusion h
      · rename_i hc
        injection h with h2
        rw [← h2]
        exact hc

/-- C3: whenever the remote search call fails with a request exception,
returns no hit, or returns a first hit whose identifier is missing or empty,
`_search_and_extract_movie` returns `none` (it never raises to its caller);
and on a list of names no individual resolution failure escalates out of
`_fetch_visual_recommendations` — the fan-out always returns normally, with
the failed resolutions filtered out. -/
theorem resolver_failure_absent_and_no_escalation
    (search : String → SearchOutcome) (movie_name : String) :
    (search (quote_plus movie_name) = SearchOutcome.requestError →
      _search_and_extract_movie search movie_name = none) ∧
    (search (quote_plus movie_name) = SearchOutcome.ok [] →
      _search_and_extract_movie search movie_name = none) ∧
    (∀ hit rest, search (quote_plus movie_name) = SearchOutcome.ok (hit :: rest) →
      (hit.imdb_id = none ∨ hit.imdb_id = some "") →
      _search_and_extract_movie search movie_name = none) ∧
    (∀ names : List String,
      _fetch_visual_recommendations search (Json.arr (names.map Json.str)) =
        Except.ok (names.filterMap (_search_and_extract_movie search),
          names.map resolverRequest)) := by
  refine ⟨?_, ?_, ?_, fetch_visual_strings_eq search⟩
  · intro h
    unfold _search_and_extract_movie
    rw [h]
  · intro h
    unfold _search_and_extract_movie
    rw [h]
  · intro hit rest h hid
    unfold _search_and_extract_movie
    rw [h]
    rcases hid with h2 | h2 <;> simp [h2]

/-- C3 witness: a failing upstream makes the resolver return `none`. -/
theorem resolver_failure_absent_and_no_escalation_witness :
    _search_and_extract_movie errorSearch "A" = none :=
  (resolver_failure_absent_and_no_escalation errorSearch "A").1 rfl

/-- C4 counterexample: the resolver search call for the concrete name
"Inception" carries no bounded timeout — the code passes no timeout argument
to `requests.get`, so no finite timeout exists for the call. -/
theorem resolver_request_no_timeout_counterexample :
    ¬ ∃ t : Nat, (resolverRequest "Inception").timeout = some t := by
  rintro ⟨t, ht⟩
  exact Option.noConfusion ht

/-- C4 amended: every resolver search call is issued with no explicit
timeout (the `requests` default of no timeout applies), so a stalled
upstream can block a worker indefinitely. -/
theorem resolver_request_timeout_none (movie_name : String) :
    (resolverRequest movie_name).timeout = none := rfl

/-- C5: for a non-empty list of names, the enrichment fan-out returns
normally with at most one entry per name, and every returned entry carries a
non-empty `imdb_id` (hits with a missing or empty identifier are dropped by
the resolver and the falsy-result filter). -/
theorem enrich_length_le_and_ids_nonempty
    (search : String → SearchOutcome) (names : List String) (_hne : names ≠ []) :
    ∃ refs reqs,
      _fetch_visual_recommendations search (Json.arr (names.map Json.str)) =
        Except.ok (refs, reqs) ∧
      refs.length ≤ names.length ∧
      ∀ r ∈ refs, r.imdb_id ≠ "" := by
  refine ⟨names.filterMap (_search_and_extract_movie search),
    names.map resolverRequest, fetch_visual_strings_eq search names, ?_, ?_⟩
  · exact List.length_filterMap_le _ _
  · intro r hr
    rcases List.mem_filterMap.mp hr with ⟨a, _, ha⟩
    exact resolve_some_id_ne search a r ha

/-- C5 witness at the singleton list `["A"]`. -/
theorem enrich_length_le_and_ids_nonempty_witness :
    ∃ refs reqs,
      _fetch_visual_recommendations errorSearch (Json.arr ((["A"] : List String).map Json.str)) =
        Except.ok (refs, reqs) ∧
      refs.length ≤ (["A"] : List String).length ∧
      ∀ r ∈ refs, r.imdb_id ≠ "" :=
  enrich_length_le_and_ids_nonempty errorSearch ["A"] (by simp)

/-- C6: an empty list, or any value that is not a list at all, makes the
enrichment return the empty sequence at once, with no outbound request
issued (the request log — the second component — is empty). -/
theorem enrich_empty_or_nonlist_no_calls (search : String → SearchOutcome) :
    _fetch_visual_recommendations search (Json.arr []) = Except.ok ([], []) ∧
    ∀ j : Json, (∀ l : List Json, j ≠ Json.arr l) →
      _fetch_visual_recommendations search j = Except.ok ([], []) :=
  ⟨rfl, fetch_nonlist_eq search⟩

/-- C6 witness at the non-list value `null`. -/
theorem enrich_empty_or_nonlist_no_calls_witness :
    _fetch_visual_recommendations errorSearch Json.null = Except.ok ([], []) :=
  (enrich_empty_or_nonlist_no_calls errorSearch).2 Json.null
    (fun _ h => Json.noConfusion h)

/-- C7 counterexample: with `recommended_movies` bound to the non-sequence
string "x", the turn processor's extraction yields that string itself, not
the empty sequence the claim states — the default of line 399 applies only
when the key is absent. -/
theorem extract_recommended_nonlist_counterexample :
    extract_recommended_movies [("recommended_movies", Json.str "x")] = Json.str "x" ∧
    Json.str "x" ≠ Json.arr [] :=
  ⟨rfl, fun h => Json.noConfusion h⟩

/-- C7 amended: the extraction defaults to the empty sequence only when the
`recommended_movies` key is absent; a present non-sequence value is passed
through unchanged to the enrichment, whose input guard then returns the
empty result without issuing a call — so the turn behaves end-to-end as if
the default had applied. -/
theorem extract_recommended_default_only_on_absent
    (fields : List (String × Json)) (search : String → SearchOutcome) :
    (jlookup fields "recommended_movies" = none →
      extract_recommended_movies fields = Json.arr []) ∧
    (∀ v, jlookup fields "recommended_movies" = some v →
      extract_recommended_movies fields = v) ∧
    (∀ v, jlookup fields "recommended_movies" = some v →
      (∀ l : List Json, v ≠ Json.arr l) →
      _fetch_visual_recommendations search (extract_recommended_movies fields) =
        Except.ok ([], [])) := by
  refine ⟨?_, ?_, ?_⟩
  · intro h
    unfold extract_recommended_movies
    rw [h]
    rfl
  · intro v h
    unfold extract_recommended_movies
    rw [h]
    rfl
  · intro v h hv
    have hx : extract_recommended_movies fields = v := by
      unfold extract_recommended_movies
      rw [h]
      rfl
    rw [hx]
    exact fetch_nonlist_eq search v hv

/-- C7 witness: a present non-sequence value yields the empty enrichment. -/
theorem extract_recommended_default_only_on_absent_witness :
    _fetch_visual_recommendations errorSearch
      (extract_recommended_movies [("recommended_movies", Json.str "x")]) =
      Except.ok ([], []) :=
  (extract_recommended_default_only_on_absent
    [("recommended_movies", Json.str "x")] errorSearch).2.2
    (Json.str "x") rfl (fun _ h => Json.noConfusion h)

/-- C10: the resolver passes `quote_plus(movie_name)` as the `title`
parameter value, the HTTP layer percent-encodes that value once more on the
wire, so the upstream receives the name double-escaped (a space arrives as
`%2B`), while the catalog-search utility passes the raw query, singly
escaped on the wire (a space arrives as `+`). -/
theorem resolver_title_double_escaped (movie_name query : String) :
    (resolverRequest movie_name).title_param = quote_plus movie_name ∧
    wireTitleValue (resolverRequest movie_name) = quote_plus (quote_plus movie_name) ∧
    (catalogSearchRequest query).title_param = query ∧
    wireTitleValue (catalogSearchRequest query) = quote_plus query ∧
    wireTitleValue (resolverRequest "a b") = "a%2Bb" ∧
    wireTitleValue (catalogSearchRequest "a b") = "a+b" :=
  ⟨rfl, rfl, rfl, rfl, by decide, by decide⟩

/-- C1: a chat turn (model configured, `message` a string) whose raw model
output lacks a `{` or lacks a `}` entirely, or whose delimited candidate
substring fails to parse as JSON, is answered with HTTP 200 and the
soft-failure apology body — never an error status. -/
theorem chat_malformed_output_soft_failure (cenv : ChatEnv)
    (body : List (String × Json)) (m : String)
    (hconf : cenv.configured = true)
    (hmsg : chatUserMessage body = some (Json.str m))
    (hbad : strFind (chatResponseText cenv body) '{' = none ∨
      strRfind (chatResponseText cenv body) '}' = none ∨
      ∀ cand, candidateJsonString (chatResponseText cenv body) = some cand →
        json_loads cand = none) :
    chat cenv body = HttpResponse.mk 200 apologyBody := by
  have hslice : pySliceable (chatUserMessage body) = true := by
    rw [hmsg]
    rfl
  have hext : extractModelJson (chatResponseText cenv body) = none := by
    cases hF : strFind (chatResponseText cenv body) '{' with
    | none =>
      cases hR : strRfind (chatResponseText cenv body) '}' <;>
        simp [extractModelJson, candidateJsonString, hF, hR]
    | some s =>
      cases hR : strRfind (chatResponseText cenv body) '}' with
      | none => simp [extractModelJson, candidateJsonString, hF, hR]
      | some e =>
        rcases hbad with h | h | h
        · rw [hF] at h
          exact Option.noConfusion h
        · rw [hR] at h
          exact Option.noConfusion h
        · have hcand : candidateJsonString (chatResponseText cenv body) =
              some (pyStrip (pySlice (chatResponseText cenv body) s (e + 1))) := by
            simp [candidateJsonString, hF, hR]
          simp [extractModelJson, hcand, h _ hcand]
  simp [chat, hconf, hslice, hext]

/-- C1 witness: a braceless model answer yields the 200 apology. -/
theorem chat_malformed_output_soft_failure_witness :
    chat noJsonEnv bodyHi = HttpResponse.mk 200 apologyBody :=
  chat_malformed_output_soft_failure noJsonEnv bodyHi "hi" rfl rfl
    (Or.inl (by decide))

/-- C2: whenever the raw model text contains a `{` and a `}`, extraction
parses exactly the stripped substring from the first `{` to the last `}`
inclusive; and on the spec's example turn — raw text `exampleRaw` wrapping
the object in prose — the route answers 200 with the parsed object carrying
`reply_to_user = "Hi"`, `context = "c"`, `recommended_movies = []` and
`visual_recommendations = []`. -/
theorem chat_extraction_first_to_last_brace :
    (∀ (rt : String) (s e : Nat), strFind rt '{' = some s → strRfind rt '}' = some e →
      extractModelJson rt = json_loads (pyStrip (pySlice rt s (e + 1)))) ∧
    chat exampleEnv bodyHi = HttpResponse.mk 200 expectedExampleBody := by
  constructor
  · intro rt s e hF hR
    simp [extractModelJson, candidateJsonString, hF, hR]
  · rfl

/-- C2 witness: the universal part applied at the two-character text holding
one brace pair. -/
theorem chat_extraction_first_to_last_brace_witness :
    strFind braceOnly '{' = some 0 ∧ strRfind braceOnly '}' = some 1 ∧
    extractModelJson braceOnly = json_loads (pyStrip (pySlice braceOnly 0 2)) :=
  ⟨rfl, rfl, chat_extraction_first_to_last_brace.1 braceOnly 0 1 rfl rfl⟩

/-- C8: the prompt is the concatenation, in order, of the fixed persona
instruction, the prior context and the new user message, where the context
section is omitted entirely — not inserted empty — when the supplied context
string is empty. -/
theorem chat_prompt_concatenation (m ctx : String) :
    (ctx = "" → chatPrompt (some (Json.str m)) (Json.str ctx) =
      SYSTEM_PROMPT ++ "\n\nUser: " ++ m) ∧
    (ctx ≠ "" → chatPrompt (some (Json.str m)) (Json.str ctx) =
      SYSTEM_PROMPT ++ "\n\nPrevious Context: " ++ ctx ++ "\n\nUser: " ++ m) := by
  constructor
  · intro h
    subst h
    rfl
  · intro h
    have ht : jsonTruthy (Json.str ctx) = true := by
      simp [jsonTruthy, h]
    simp [chatPrompt, ht, pyStr, pyStrOptJson]

/-- C8 witness: empty context omits the context section. -/
theorem chat_prompt_concatenation_witness :
    chatPrompt (some (Json.str "hi")) (Json.str "") =
      SYSTEM_PROMPT ++ "\n\nUser: " ++ "hi" :=
  (chat_prompt_concatenation "hi" "").1 rfl

/-- C9: with the model configured, a JSON body lacking the `message` key is
answered 500 with the generic error body — the missing field is never
validated up front but surfaces as the `TypeError` of slicing `None` in the
diagnostic log line, caught by the catch-all handler; in particular the
status is 500, not a 400 request-validation error. -/
theorem chat_missing_message_generic_500 (cenv : ChatEnv)
    (body : List (String × Json))
    (hconf : cenv.configured = true)
    (hmsg : chatUserMessage body = none) :
    chat cenv body = HttpResponse.mk 500 criticalErrorBody ∧
    (chat cenv body).status ≠ 400 := by
  have hs : pySliceable (chatUserMessage body) = false := by
    rw [hmsg]
    rfl
  have h : chat cenv body = HttpResponse.mk 500 criticalErrorBody := by
    simp [chat, hconf, hs]
  refine ⟨h, ?_⟩
  rw [h]
  decide

/-- C9 witness: the empty JSON object body yields the generic 500. -/
theorem chat_missing_message_generic_500_witness :
    chat noJsonEnv [] = HttpResponse.mk 500 criticalErrorBody :=
  (chat_missing_message_generic_500 noJsonEnv [] rfl rfl).1
